import Mathlib

/-!
# Verification of the virtualized grid renderer (`src/components/grid/GridCanvas.tsx`)

This file gives a shallow embedding, over `ℚ`, of the core rendering /
virtualization logic of `GridCanvas.tsx`: the camera constraint function, the
animation tick, the viewport-culling bounds and the batched / chunked draw
pass of `drawGrid`, the grid-expansion routine, the click-resolution gesture
logic, and the sprite-pool bookkeeping.  Machine floats of the source are
modelled as exact rationals; the `Map<string, TileData>` store (keys
`"row,col"`) is modelled as a function `ℤ × ℤ → Option TileData`
(the key string is an injective image of the coordinate pair).
-/

namespace GridCanvas

/-- Source: `const TILE_SIZE = 50` (GridCanvas.tsx line 63). -/
def TILE_SIZE : ℚ := 50

/-- Source: `const MIN_VISIBLE_TILES = 10` (line 66). -/
def MIN_VISIBLE_TILES : ℚ := 10

/-- Source: `const MAX_VISIBLE_TILES = 100` (line 67). -/
def MAX_VISIBLE_TILES : ℚ := 100

/-- Source: `const ZOOM_SPEED = 0.001` (line 68). -/
def ZOOM_SPEED : ℚ := 1 / 1000

/-- Source: `const LERP_FACTOR = 0.15` (line 69). -/
def LERP_FACTOR : ℚ := 3 / 20

/-- Source: `const LOD_MINIMAL_SCALE = 0.1` (line 72). -/
def LOD_MINIMAL_SCALE : ℚ := 1 / 10

/-- Source: `const LOD_LOW_SCALE = 0.5` (line 73). -/
def LOD_LOW_SCALE : ℚ := 1 / 2

/-- Source: `const CHUNK_SIZE = 10` (line 74). -/
def CHUNK_SIZE : ℕ := 10

/-- Source: `interface TileData { sold: boolean; imageUrl?: string }` (lines 90-93). -/
structure TileData where
  sold : Bool
  imageUrl : Option String := none
deriving DecidableEq

/-- Model of the sparse store `Map<string, TileData>` with keys `"row,col"`
(line 109): a function from the coordinate pair to the optional record;
`none` models an absent key. -/
abbrev TileMap := ℤ × ℤ → Option TileData

/-- The `viewport` state object (lines 178-184): pixel dimensions plus the
*actual* camera triple. -/
structure Viewport where
  width : ℚ
  height : ℚ
  xOffset : ℚ
  yOffset : ℚ
  scale : ℚ
deriving DecidableEq

/-- A camera triple, as stored in `targetViewport.current` (line 186). -/
structure Cam where
  xOffset : ℚ
  yOffset : ℚ
  scale : ℚ
deriving DecidableEq

/-- Truthiness of `tile?.sold` for an optional record: true iff a record is
present and its `sold` field is `true`. -/
def soldTruthy : Option TileData → Bool
  | none => false
  | some t => t.sold

/-- Truthiness of `tile?.imageUrl`: true iff a record is present, carries an
`imageUrl`, and that string is non-empty (the empty string is falsy in JS). -/
def imageTruthy : Option TileData → Bool
  | none => false
  | some t =>
    match t.imageUrl with
    | none => false
    | some s => decide (s ≠ "")

/-- The half-open integer interval `[a, b)` as a list, modelling a
`for (let i = a; i < b; i++)` loop over integer values. -/
def intRange (a b : ℤ) : List ℤ :=
  (List.range (b - a).toNat).map (fun (i : ℕ) => a + (i : ℤ))

theorem mem_intRange {a b x : ℤ} : x ∈ intRange a b ↔ a ≤ x ∧ x < b := by
  constructor
  · intro h
    obtain ⟨i, hi, rfl⟩ := List.mem_map.mp h
    have := List.mem_range.mp hi
    omega
  · intro h
    exact List.mem_map.mpr ⟨(x - a).toNat, List.mem_range.mpr (by omega), by omega⟩

/-! ## Viewport-culling bounds (`drawGrid`, lines 272-276) -/

/-- Source: `const scaledTileSize = TILE_SIZE * viewport.scale` (line 272). -/
def scaledTileSize (v : Viewport) : ℚ := TILE_SIZE * v.scale

/-- Source: `const startCol = Math.floor(viewport.xOffset / scaledTileSize)` (line 273). -/
def startCol (v : Viewport) : ℤ := ⌊v.xOffset / scaledTileSize v⌋

/-- Source: `const endCol = Math.min(cols, Math.ceil((viewport.xOffset + viewport.width) / scaledTileSize))` (line 274). -/
def endCol (v : Viewport) (cols : ℕ) : ℤ :=
  min (cols : ℤ) ⌈(v.xOffset + v.width) / scaledTileSize v⌉

/-- Source: `const startRow = Math.floor(viewport.yOffset / scaledTileSize)` (line 275). -/
def startRow (v : Viewport) : ℤ := ⌊v.yOffset / scaledTileSize v⌋

/-- Source: `const endRow = Math.min(rows, Math.ceil((viewport.yOffset + viewport.height) / scaledTileSize))` (line 276). -/
def endRow (v : Viewport) (rows : ℕ) : ℤ :=
  min (rows : ℤ) ⌈(v.yOffset + v.height) / scaledTileSize v⌉

/-- The tiles visited by the batched pass of `drawGrid`: the double loop
`for (row = startRow; row < endRow; row++) for (col = startCol; col < endCol; col++)`
(lines 324-325). -/
def visitedTiles (v : Viewport) (rows cols : ℕ) : List (ℤ × ℤ) :=
  (intRange (startRow v) (endRow v rows)).flatMap fun r =>
    (intRange (startCol v) (endCol v cols)).map fun c => (r, c)

theorem mem_visitedTiles {v : Viewport} {rows cols : ℕ} {r c : ℤ} :
    (r, c) ∈ visitedTiles v rows cols ↔
      startRow v ≤ r ∧ r < endRow v rows ∧ startCol v ≤ c ∧ c < endCol v cols := by
  simp only [visitedTiles, List.mem_flatMap, List.mem_map, Prod.mk.injEq]
  constructor
  · rintro ⟨r', hr, c', hc, rfl, rfl⟩
    exact ⟨(mem_intRange.mp hr).1, (mem_intRange.mp hr).2,
      (mem_intRange.mp hc).1, (mem_intRange.mp hc).2⟩
  · rintro ⟨h1, h2, h3, h4⟩
    exact ⟨r, mem_intRange.mpr ⟨h1, h2⟩, c, mem_intRange.mpr ⟨h3, h4⟩, rfl, rfl⟩

/-- The screen rectangle of tile `(r, c)` — the grid container is rendered at
position `(-xOffset, -yOffset)` with the camera scale (lines 640-644), so the
tile's pixel rectangle is
`[c·s - xOffset, (c+1)·s - xOffset) × [r·s - yOffset, (r+1)·s - yOffset)`
with `s = TILE_SIZE · scale` — has non-empty intersection with the viewport
pixel rectangle `[0, width) × [0, height)`. -/
def tileIntersectsViewport (v : Viewport) (r c : ℤ) : Prop :=
  (c : ℚ) * scaledTileSize v - v.xOffset < v.width ∧
  0 < ((c : ℚ) + 1) * scaledTileSize v - v.xOffset ∧
  (r : ℚ) * scaledTileSize v - v.yOffset < v.height ∧
  0 < ((r : ℚ) + 1) * scaledTileSize v - v.yOffset

/-! ## Chunked (Minimal-LOD) pass of `drawGrid` (lines 282-316) -/

/-- Source: `const chunkStartCol = Math.floor(startCol / CHUNK_SIZE)` (line 284). -/
def chunkStartCol (v : Viewport) : ℤ := ⌊(startCol v : ℚ) / (CHUNK_SIZE : ℚ)⌋

/-- Source: `const chunkEndCol = Math.ceil(endCol / CHUNK_SIZE)` (line 285). -/
def chunkEndCol (v : Viewport) (cols : ℕ) : ℤ := ⌈(endCol v cols : ℚ) / (CHUNK_SIZE : ℚ)⌉

/-- Source: `const chunkStartRow = Math.floor(startRow / CHUNK_SIZE)` (line 286). -/
def chunkStartRow (v : Viewport) : ℤ := ⌊(startRow v : ℚ) / (CHUNK_SIZE : ℚ)⌋

/-- Source: `const chunkEndRow = Math.ceil(endRow / CHUNK_SIZE)` (line 287). -/
def chunkEndRow (v : Viewport) (rows : ℕ) : ℤ := ⌈(endRow v rows : ℚ) / (CHUNK_SIZE : ℚ)⌉

/-- The tiles scanned for one chunk by the inner double loop (lines 295-296):
`r` from `chunkRow*CHUNK_SIZE` up to `min((chunkRow+1)*CHUNK_SIZE, rows)`,
`c` from `chunkCol*CHUNK_SIZE` up to `min((chunkCol+1)*CHUNK_SIZE, cols)`. -/
def chunkTiles (rows cols : ℕ) (chunkRow chunkCol : ℤ) : List (ℤ × ℤ) :=
  (intRange (chunkRow * (CHUNK_SIZE : ℤ)) (min ((chunkRow + 1) * (CHUNK_SIZE : ℤ)) (rows : ℤ))).flatMap
    fun r =>
      (intRange (chunkCol * (CHUNK_SIZE : ℤ)) (min ((chunkCol + 1) * (CHUNK_SIZE : ℤ)) (cols : ℤ))).map
        fun c => (r, c)

/-- One emitted chunk rectangle of the Minimal-LOD path, with the two counters
accumulated by the scan (lines 292-301). -/
structure ChunkOp where
  chunkRow : ℤ
  chunkCol : ℤ
  soldCount : ℕ
  totalCount : ℕ
deriving DecidableEq

/-- The chunk scan (lines 292-301): `totalCount` is incremented once per
scanned tile, `soldCount` once per scanned tile whose record is truthy-sold. -/
def chunkOpFor (td : TileMap) (rows cols : ℕ) (chunkRow chunkCol : ℤ) : ChunkOp :=
  { chunkRow := chunkRow
    chunkCol := chunkCol
    soldCount := ((chunkTiles rows cols chunkRow chunkCol).filter fun rc => soldTruthy (td rc)).length
    totalCount := (chunkTiles rows cols chunkRow chunkCol).length }

/-- Source: `const soldRatio = soldCount / totalCount` (line 304). -/
def soldRatio (op : ChunkOp) : ℚ := (op.soldCount : ℚ) / (op.totalCount : ℚ)

/-! ## The full per-frame draw pass `drawGrid` (lines 266-377) -/

/-- The draw operations emitted by one call of `drawGrid`.  In the Minimal-LOD
branch only `chunkOps` is populated (one `beginFill`/`drawRect` per element);
otherwise the three bucket lists hold the visible tiles classified by the
`if (tile?.imageUrl) ... else if (tile?.sold) ... else ...` chain
(lines 331-337), and each non-empty bucket is emitted as one batched fill
(available `0x4caf50`, sold `0xff6347`, image placeholder `0x2196f3`;
lines 342-369).  Border strokes are added iff `!isLowLOD` (lines 344/354/364). -/
structure RenderOutput where
  isMinimalLOD : Bool
  isLowLOD : Bool
  chunkOps : List ChunkOp
  availableTiles : List (ℤ × ℤ)
  soldTiles : List (ℤ × ℤ)
  imageTiles : List (ℤ × ℤ)
deriving DecidableEq

/-- Shallow embedding of `drawGrid` (lines 266-377). -/
def drawGrid (v : Viewport) (rows cols : ℕ) (td : TileMap) : RenderOutput :=
  let isMinimalLOD := v.scale < LOD_MINIMAL_SCALE
  let isLowLOD := v.scale < LOD_LOW_SCALE
  if isMinimalLOD then
    { isMinimalLOD := true
      isLowLOD := decide isLowLOD
      chunkOps :=
        (intRange (chunkStartRow v) (chunkEndRow v rows)).flatMap fun chunkRow =>
          (intRange (chunkStartCol v) (chunkEndCol v cols)).map fun chunkCol =>
            chunkOpFor td rows cols chunkRow chunkCol
      availableTiles := []
      soldTiles := []
      imageTiles := [] }
  else
    { isMinimalLOD := false
      isLowLOD := decide isLowLOD
      chunkOps := []
      availableTiles :=
        (visitedTiles v rows cols).filter fun rc => !imageTruthy (td rc) && !soldTruthy (td rc)
      soldTiles :=
        (visitedTiles v rows cols).filter fun rc => !imageTruthy (td rc) && soldTruthy (td rc)
      imageTiles := (visitedTiles v rows cols).filter fun rc => imageTruthy (td rc) }

/-- The tiles that receive a placeholder filled rectangle (`beginFill(0x2196f3)`
followed by one `drawRect` per tile, lines 361-369) in a frame: the image
bucket of the batched pass; the Minimal-LOD branch draws no per-tile
placeholders. -/
def placeholderFillTiles (v : Viewport) (rows cols : ℕ) (td : TileMap) : List (ℤ × ℤ) :=
  let out := drawGrid v rows cols td
  if out.isMinimalLOD then [] else out.imageTiles

/-! ## Zoom constraints and camera clamping (lines 204-237) -/

/-- Source: `getZoomConstraints` (lines 204-220): returns `(minScale, maxScale)`. -/
def getZoomConstraints (rows : ℕ) (height : ℚ) : ℚ × ℚ :=
  let maxScale := height / (MIN_VISIBLE_TILES * TILE_SIZE)
  let performanceMinScale := height / (MAX_VISIBLE_TILES * TILE_SIZE)
  let gridHeight := (rows : ℚ) * TILE_SIZE
  let gridMinScale := height / gridHeight
  (max performanceMinScale gridMinScale, maxScale)

/-- Source: `constrainViewport` (lines 223-237). -/
def constrainViewport (rows cols : ℕ) (width height : ℚ) (xOffset yOffset scale : ℚ) : Cam :=
  let minScale := (getZoomConstraints rows height).1
  let maxScale := (getZoomConstraints rows height).2
  let constrainedScale := max minScale (min maxScale scale)
  let scaledTileSize := TILE_SIZE * constrainedScale
  let gridWidth := (cols : ℚ) * scaledTileSize
  let gridHeight := (rows : ℚ) * scaledTileSize
  let maxXOffset := max 0 (gridWidth - width)
  let maxYOffset := max 0 (gridHeight - height)
  { xOffset := max 0 (min maxXOffset xOffset)
    yOffset := max 0 (min maxYOffset yOffset)
    scale := constrainedScale }

/-- The legal pan/zoom bounds for a camera triple: scale within
`[minScale, maxScale]` of `getZoomConstraints`, and each offset within
`[0, max 0 (grid_pixel_extent - viewport_pixel_extent)]` (spec §4.2; the
extents are the ones `constrainViewport` computes at that scale). -/
def camInBounds (rows cols : ℕ) (width height : ℚ) (xOffset yOffset scale : ℚ) : Prop :=
  (getZoomConstraints rows height).1 ≤ scale ∧
  scale ≤ (getZoomConstraints rows height).2 ∧
  0 ≤ xOffset ∧ xOffset ≤ max 0 ((cols : ℚ) * (TILE_SIZE * scale) - width) ∧
  0 ≤ yOffset ∧ yOffset ≤ max 0 ((rows : ℚ) * (TILE_SIZE * scale) - height)

/-! ## The animation tick (lines 240-263) -/

/-- One step of the `animate` loop body (lines 245-258): compute the three
deltas to `targetViewport.current`; if all are within the epsilons
(`0.1`, `0.1`, `0.001`) snap to the target, else advance each component by
`delta * LERP_FACTOR`. -/
def tick (target current : Cam) : Cam :=
  let dx := target.xOffset - current.xOffset
  let dy := target.yOffset - current.yOffset
  let ds := target.scale - current.scale
  if |dx| < 1 / 10 ∧ |dy| < 1 / 10 ∧ |ds| < 1 / 1000 then target
  else
    { xOffset := current.xOffset + dx * LERP_FACTOR
      yOffset := current.yOffset + dy * LERP_FACTOR
      scale := current.scale + ds * LERP_FACTOR }

/-- Source: `n` iterations of the per-frame tick against a fixed target. -/
def ticks (target init : Cam) : ℕ → Cam
  | 0 => init
  | n + 1 => tick target (ticks target init n)

/-! ## Grid expansion (`expandGrid`, lines 500-525) -/

/-- A grid state: the two dimensions plus the sparse tile store. -/
structure GridState where
  rows : ℕ
  cols : ℕ
  tileData : TileMap

/-- One iteration of the backfill loop body (lines 511-515): if the key is
absent and the random draw for this coordinate is below `0.1`
(modelled by the boolean oracle `rand`), insert `{ sold: true }`. -/
def backfillStep (rand : ℤ × ℤ → Bool) (m : TileMap) (rc : ℤ × ℤ) : TileMap :=
  if (m rc).isNone && rand rc then
    fun k => if k = rc then some { sold := true } else m k
  else m

/-- The coordinates visited by the backfill loops (lines 509-510):
`r` over `[0, newRows)`, `c` over `[0, newCols)`. -/
def backfillCoords (newRows newCols : ℕ) : List (ℤ × ℤ) :=
  (List.range newRows).flatMap fun r =>
    (List.range newCols).map fun c => ((r : ℤ), (c : ℤ))

/-- Source: `expandGrid` (lines 500-525): doubles both dimensions and folds the
backfill loop over a copy of the previous store.  `rand rc` models
`Math.random() < 0.1` at the iteration that examines coordinate `rc`. -/
def expandGrid (g : GridState) (rand : ℤ × ℤ → Bool) : GridState :=
  let newRows := g.rows * 2
  let newCols := g.cols * 2
  { rows := newRows
    cols := newCols
    tileData := (backfillCoords newRows newCols).foldl (backfillStep rand) g.tileData }

/-! ## Viewport-controller operations (lines 186-201, 454-497) -/

/-- The state the controller's event handlers read and write: grid dimensions,
viewport pixel dimensions, and the stored `targetViewport.current`. -/
structure ControllerState where
  rows : ℕ
  cols : ℕ
  width : ℚ
  height : ℚ
  target : Cam
deriving DecidableEq

/-- The pan update of `handlePanMove` (lines 472-476): subtract the pointer
delta from the stored target offsets, then clamp through `constrainViewport`. -/
def applyPan (st : ControllerState) (dx dy : ℚ) : ControllerState :=
  { st with
      target :=
        constrainViewport st.rows st.cols st.width st.height
          (st.target.xOffset - dx) (st.target.yOffset - dy) st.target.scale }

/-- The wheel-zoom update of `handleWheel` (lines 485-497): multiplicative
scale step with the zoom-toward-cursor offset recomputation, then clamp. -/
def applyWheel (st : ControllerState) (deltaY mouseX mouseY : ℚ) : ControllerState :=
  let delta := -deltaY * ZOOM_SPEED
  let newScale := st.target.scale * (1 + delta)
  let worldX := (mouseX + st.target.xOffset) / st.target.scale
  let worldY := (mouseY + st.target.yOffset) / st.target.scale
  let newXOffset := worldX * newScale - mouseX
  let newYOffset := worldY * newScale - mouseY
  { st with
      target :=
        constrainViewport st.rows st.cols st.width st.height
          newXOffset newYOffset newScale }

/-- The resize handler (lines 195-201): it only writes the new pixel
dimensions into the viewport state; `targetViewport.current` is not touched
and `constrainViewport` is not called. -/
def handleResize (st : ControllerState) (w h : ℚ) : ControllerState :=
  { st with width := w, height := h }

/-- The invariant claimed of the stored target: it satisfies the pan/zoom
bounds computed from the current grid dimensions and viewport pixel size. -/
def targetInBounds (st : ControllerState) : Prop :=
  camInBounds st.rows st.cols st.width st.height
    st.target.xOffset st.target.yOffset st.target.scale

/-! ## Click resolution (lines 380-433)

A gesture is modelled by the screen (client) positions of the pointer-down,
the pointer-moves, and the pointer-up, together with one camera snapshot: in
the scenarios stated below the clamped target never moves during the gesture,
so a single snapshot is exact.  `getLocalPosition` on the grid container
(rendered at `(-xOffset, -yOffset)` with the camera scale, lines 640-644)
maps a screen point `p` to `((p.x + xOffset)/scale, (p.y + yOffset)/scale)`. -/

structure Gesture where
  down : ℚ × ℚ
  moves : List (ℚ × ℚ)
  up : ℚ × ℚ
deriving DecidableEq

/-- Container-local (world) position of a screen point. -/
def localPos (cam : Cam) (p : ℚ × ℚ) : ℚ × ℚ :=
  ((p.1 + cam.xOffset) / cam.scale, (p.2 + cam.yOffset) / cam.scale)

/-- Source: `handlePointerMove` (lines 393-411): the drag flag it can raise.  Movement
is tracked only while `pointerDownPos` is not the sentinel `(0,0)`
(line 397); a move raises the flag when its local distance from the stored
pointer-down position exceeds `5` in either axis (line 405). -/
def pixiHasMoved (cam : Cam) (g : Gesture) : Bool :=
  let ld := localPos cam g.down
  if ld = (0, 0) then false
  else
    g.moves.any fun m =>
      let lm := localPos cam m
      decide (5 < |lm.1 - ld.1|) || decide (5 < |lm.2 - ld.2|)

/-- Source: `handlePanMove` (lines 461-477): the drag flag it can raise.  It compares
each mouse-move's client position against the previous one
(`lastPointerPos`, seeded by the pan-start position, line 457) and raises the
flag when a consecutive delta exceeds `5` client pixels in either axis
(line 467). -/
def panHasMoved (g : Gesture) : Bool :=
  ((g.down :: g.moves).zip g.moves).any fun pc =>
    decide (5 < |pc.2.1 - pc.1.1|) || decide (5 < |pc.2.2 - pc.1.2|)

/-- Source: `handlePointerUp` (lines 413-433): if neither drag flag was raised, map
the local pointer-up position to `(row, col)` by flooring against
`TILE_SIZE`, and resolve iff the coordinate is inside the grid. -/
def resolveClick (cam : Cam) (rows cols : ℕ) (g : Gesture) : Option (ℤ × ℤ) :=
  if panHasMoved g || pixiHasMoved cam g then none
  else
    let lp := localPos cam g.up
    let col := ⌊lp.1 / TILE_SIZE⌋
    let row := ⌊lp.2 / TILE_SIZE⌋
    if 0 ≤ col ∧ col < (cols : ℤ) ∧ 0 ≤ row ∧ row < (rows : ℤ) then some (row, col)
    else none

/-! ## Sprite pool bookkeeping (lines 96, 122-159)

Sprites are modelled by natural-number handles and textures by their cache
key.  `getOrCreateSprite` and `returnSpriteToPool` are embedded below; the
per-frame draw pass `drawGrid` (lines 266-377) contains no call to either and
never reads or writes `activeSpriteMap`/`spritePool`, so a frame leaves the
sprite state unchanged. -/

structure SpriteState where
  pool : List ℕ
  active : List ((ℤ × ℤ) × ℕ)
  textureCache : List (String × ℕ)
  nextId : ℕ
deriving DecidableEq

/-- Source: `spritePool`/`activeSpriteMap`/`textureCache` start empty
(lines 96, 123-124). -/
def initialSpriteState : SpriteState :=
  { pool := [], active := [], textureCache := [], nextId := 0 }

/-- Source: `getOrCreateSprite` (lines 127-153): look the URL up in the texture cache,
inserting on miss; pop a sprite from the pool or allocate a fresh handle. -/
def getOrCreateSprite (s : SpriteState) (imageUrl : String) : ℕ × SpriteState :=
  let cache :=
    if (s.textureCache.lookup imageUrl).isSome then s.textureCache
    else (imageUrl, s.textureCache.length) :: s.textureCache
  match s.pool with
  | sprite :: rest => (sprite, { s with pool := rest, textureCache := cache })
  | [] => (s.nextId, { s with nextId := s.nextId + 1, textureCache := cache })

/-- Source: `returnSpriteToPool` (lines 155-159): push the sprite back on the pool. -/
def returnSpriteToPool (s : SpriteState) (sprite : ℕ) : SpriteState :=
  { s with pool := sprite :: s.pool }

/-- The effect of one `drawGrid` frame on the sprite state: `drawGrid`
(lines 266-377) draws chunk or batched rectangles only — it contains no call
to `getOrCreateSprite` or `returnSpriteToPool` and no access to
`activeSpriteMap` or `spritePool` — so the sprite state is returned
unchanged. -/
def renderFrame (_v : Viewport) (_rows _cols : ℕ) (_td : TileMap) (s : SpriteState) : SpriteState :=
  s

/-- The sprite state after a sequence of frames, each with its own viewport,
dimensions and tile store. -/
def runFrames (frames : List (Viewport × ℕ × ℕ × TileMap)) (s : SpriteState) : SpriteState :=
  frames.foldl (fun s f => renderFrame f.1 f.2.1 f.2.2.1 f.2.2.2 s) s

/-! ## Helper lemmas -/

theorem backfill_foldl_preserves (rand : ℤ × ℤ → Bool) (l : List (ℤ × ℤ)) (m : TileMap)
    (k : ℤ × ℤ) (v : TileData) (h : m k = some v) :
    (l.foldl (backfillStep rand) m) k = some v := by
  induction l generalizing m with
  | nil => exact h
  | cons a t ih =>
    apply ih
    unfold backfillStep
    split
    · rename_i hcond
      by_cases hk : k = a
      · subst hk
        rw [h] at hcond
        simp at hcond
      · simp only [hk, if_false]
        exact h
    · exact h

/-! ## C2 — expansion doubles dimensions and preserves stored records -/

/-- C2.  Expansion atomicity and preservation: one call of `expandGrid`
doubles both dimensions, and every record stored before the call is
retrievable unchanged at its original coordinate, for every outcome of the
random draws. -/
theorem expandGrid_doubles_and_preserves (g : GridState) (rand : ℤ × ℤ → Bool)
    (k : ℤ × ℤ) (v : TileData) (h : g.tileData k = some v) :
    (expandGrid g rand).rows = 2 * g.rows ∧
    (expandGrid g rand).cols = 2 * g.cols ∧
    (expandGrid g rand).tileData k = some v := by
  refine ⟨Nat.mul_comm g.rows 2, Nat.mul_comm g.cols 2, ?_⟩
  exact backfill_foldl_preserves rand _ _ k v h

/-- Witness for C2 at a concrete grid: a 1×1 grid storing a record at `(0,0)`,
with every random draw succeeding. -/
theorem expandGrid_doubles_and_preserves_witness :
    (expandGrid ⟨1, 1, fun k => if k = (0, 0) then some ⟨true, none⟩ else none⟩
        (fun _ => true)).rows =
      2 * (GridState.mk 1 1 (fun k => if k = (0, 0) then some ⟨true, none⟩ else none)).rows ∧
    (expandGrid ⟨1, 1, fun k => if k = (0, 0) then some ⟨true, none⟩ else none⟩
        (fun _ => true)).cols =
      2 * (GridState.mk 1 1 (fun k => if k = (0, 0) then some ⟨true, none⟩ else none)).cols ∧
    (expandGrid ⟨1, 1, fun k => if k = (0, 0) then some ⟨true, none⟩ else none⟩
        (fun _ => true)).tileData (0, 0) = some ⟨true, none⟩ :=
  expandGrid_doubles_and_preserves _ (fun _ => true) (0, 0) ⟨true, none⟩ (by decide)

/-! ## C3 — the synthetic backfill also hits old in-bounds coordinates -/

/-- C3 (failing input).  The backfill loops of `expandGrid` (lines 509-510)
range over all of `[0, newRows) × [0, newCols)`, not only over the new
coordinates: on a 1×1 grid with an empty store, when the random draw at
`(0,0)` succeeds, the old-grid coordinate `(0,0)` — valid before the call
(`0 < rows`, `0 < cols`) and default (unoccupied) — is newly marked occupied,
although the code's own comment says tiles are added "to new areas". -/
theorem expandGrid_backfills_inside_old_bounds :
    (GridState.mk 1 1 (fun _ => none)).tileData (0, 0) = none ∧
    ((0 : ℤ) < (GridState.mk 1 1 (fun _ => none)).rows ∧
      (0 : ℤ) < (GridState.mk 1 1 (fun _ => none)).cols) ∧
    (expandGrid ⟨1, 1, fun _ => none⟩ (fun _ => true)).tileData (0, 0) =
      some { sold := true } := by
  refine ⟨rfl, by decide, ?_⟩
  decide

/-! ## C9 — sprite accounting -/

/-- C9 (counterexample).  A frame at Full LOD (scale `1`) on a 10×10 grid with
one visible image-bearing tile: the culled pass finds exactly one visible
image tile, but the active sprite set after the frame (starting from the
initial empty state) has size `0`, so
`active_sprites.size() == visible_image_tiles.size()` fails. -/
theorem active_sprites_mismatch_visible_image_tiles :
    ((drawGrid ⟨800, 600, 0, 0, 1⟩ 10 10
        (fun k => if k = (0, 0) then some ⟨true, some "tile.png"⟩ else none)).imageTiles).length = 1 ∧
    (runFrames
        [(⟨800, 600, 0, 0, 1⟩, 10, 10,
          fun k => if k = (0, 0) then some ⟨true, some "tile.png"⟩ else none)]
        initialSpriteState).active.length = 0 ∧
    (0 : ℕ) ≠ 1 := by
  refine ⟨?_, rfl, by norm_num⟩
  have hsr : startRow ⟨800, 600, 0, 0, 1⟩ = 0 := by
    norm_num [startRow, scaledTileSize, TILE_SIZE]
  have her : endRow ⟨800, 600, 0, 0, 1⟩ 10 = 10 := by
    norm_num [endRow, scaledTileSize, TILE_SIZE]
  have hsc : startCol ⟨800, 600, 0, 0, 1⟩ = 0 := by
    norm_num [startCol, scaledTileSize, TILE_SIZE]
  have hec : endCol ⟨800, 600, 0, 0, 1⟩ 10 = 10 := by
    norm_num [endCol, scaledTileSize, TILE_SIZE]
  have hmin : ¬ ((Viewport.mk 800 600 0 0 1).scale < LOD_MINIMAL_SCALE) := by
    norm_num [LOD_MINIMAL_SCALE]
  simp only [drawGrid, if_neg hmin, visitedTiles, hsr, her, hsc, hec]
  decide

/-- C9 (amended).  The per-frame draw pass performs no sprite reconciliation:
after any sequence of frames from the initial state, the active sprite set is
still empty, and (trivially) the union of active and pooled sprites contains
no duplicate. -/
theorem active_sprites_remain_empty (frames : List (Viewport × ℕ × ℕ × TileMap)) :
    (runFrames frames initialSpriteState).active = [] ∧
    ((runFrames frames initialSpriteState).active.map Prod.snd ++
        (runFrames frames initialSpriteState).pool).Nodup := by
  have h : ∀ s : SpriteState, runFrames frames s = s := by
    intro s
    induction frames generalizing s with
    | nil => rfl
    | cons f t ih => exact ih s
  rw [h]
  exact ⟨rfl, List.nodup_nil⟩

/-! ## C6 — placeholder fills at Full LOD -/

/-- C6 (counterexample).  A frame at Full LOD (`scale = 1 ≥ LOD_LOW_SCALE`) on
a 10×10 grid: the visible image-bearing tile `(0,0)` is in the placeholder
fill bucket (`beginFill(0x2196f3)` + `drawRect`, lines 361-369), so an image
tile does receive a placeholder filled rectangle at Full LOD. -/
theorem placeholder_drawn_at_full_lod :
    LOD_LOW_SCALE ≤ (Viewport.mk 800 600 0 0 1).scale ∧
    ((0 : ℤ), (0 : ℤ)) ∈ placeholderFillTiles ⟨800, 600, 0, 0, 1⟩ 10 10
      (fun k => if k = (0, 0) then some ⟨true, some "tile.png"⟩ else none) := by
  refine ⟨by norm_num [LOD_LOW_SCALE], ?_⟩
  have hmin : ¬ ((Viewport.mk 800 600 0 0 1).scale < LOD_MINIMAL_SCALE) := by
    norm_num [LOD_MINIMAL_SCALE]
  simp only [placeholderFillTiles, drawGrid, if_neg hmin]
  refine List.mem_filter.mpr ⟨mem_visitedTiles.mpr ?_, by decide⟩
  refine ⟨?_, ?_, ?_, ?_⟩ <;>
    norm_num [startRow, endRow, startCol, endCol, scaledTileSize, TILE_SIZE]

/-- C6 (amended).  At every non-Minimal LOD — Low and Full alike — the batched
pass emits a placeholder filled rectangle for every visible tile whose record
carries an image reference: the placeholder set equals the visible tiles with
a truthy `imageUrl`. -/
theorem nonminimal_lod_placeholder_fills (v : Viewport) (rows cols : ℕ) (td : TileMap)
    (h : LOD_MINIMAL_SCALE ≤ v.scale) :
    placeholderFillTiles v rows cols td =
      (visitedTiles v rows cols).filter (fun rc => imageTruthy (td rc)) := by
  have hnot : ¬ v.scale < LOD_MINIMAL_SCALE := not_lt.mpr h
  simp [placeholderFillTiles, drawGrid, hnot]

/-- Witness for the amended C6 at a concrete Full-LOD frame. -/
theorem nonminimal_lod_placeholder_fills_witness :
    placeholderFillTiles ⟨800, 600, 0, 0, 1⟩ 10 10
        (fun k => if k = (0, 0) then some ⟨true, some "tile.png"⟩ else none) =
      (visitedTiles ⟨800, 600, 0, 0, 1⟩ 10 10).filter
        (fun rc =>
          imageTruthy
            ((fun k => if k = (0, 0) then some ⟨true, some "tile.png"⟩ else none) rc)) :=
  nonminimal_lod_placeholder_fills ⟨800, 600, 0, 0, 1⟩ 10 10 _ (by norm_num [LOD_MINIMAL_SCALE])

/-! ## C1 — viewport-culling completeness -/

theorem floor_div_le_iff {s q : ℚ} (hs : 0 < s) (i : ℤ) :
    ⌊q / s⌋ ≤ i ↔ 0 < ((i : ℚ) + 1) * s - q := by
  rw [Int.floor_le_iff, div_lt_iff₀ hs, ← sub_pos]

theorem lt_ceil_div_iff {s q : ℚ} (hs : 0 < s) (i : ℤ) :
    i < ⌈q / s⌉ ↔ (i : ℚ) * s < q := by
  rw [Int.lt_ceil, lt_div_iff₀ hs]

/-- C1.  Viewport-culling completeness: for every camera state within the
legal bounds (positive scale, non-negative offsets — the pan clamp keeps
offsets `≥ 0`) and every grid dimensions, a tile is visited by the batched
per-frame pass of `drawGrid` (i.e. lies in the half-open rectangle
`[startRow, endRow) × [startCol, endCol)` obtained by inverse-projecting the
viewport edges and clamping to the grid) iff it is an in-bounds tile whose
screen rectangle meets the viewport rectangle: no visible tile is skipped
and no invisible tile is drawn. -/
theorem visited_iff_intersects (v : Viewport) (rows cols : ℕ) (r c : ℤ)
    (hs : 0 < v.scale) (hx : 0 ≤ v.xOffset) (hy : 0 ≤ v.yOffset) :
    (r, c) ∈ visitedTiles v rows cols ↔
      0 ≤ r ∧ r < (rows : ℤ) ∧ 0 ≤ c ∧ c < (cols : ℤ) ∧
        tileIntersectsViewport v r c := by
  have hst : 0 < scaledTileSize v := by
    have h50 : (0 : ℚ) < TILE_SIZE := by norm_num [TILE_SIZE]
    exact mul_pos h50 hs
  rw [mem_visitedTiles]
  simp only [startRow, endRow, startCol, endCol, tileIntersectsViewport, lt_min_iff]
  constructor
  · rintro ⟨h1, ⟨h2a, h2b⟩, h3, h4a, h4b⟩
    have hr0 : (0 : ℤ) ≤ ⌊v.yOffset / scaledTileSize v⌋ :=
      Int.floor_nonneg.mpr (div_nonneg hy hst.le)
    have hc0 : (0 : ℤ) ≤ ⌊v.xOffset / scaledTileSize v⌋ :=
      Int.floor_nonneg.mpr (div_nonneg hx hst.le)
    have hi2 := (floor_div_le_iff hst c).mp h3
    have hi4 := (floor_div_le_iff hst r).mp h1
    have hi1 := (lt_ceil_div_iff hst c).mp h4b
    have hi3 := (lt_ceil_div_iff hst r).mp h2b
    exact ⟨le_trans hr0 h1, h2a, le_trans hc0 h3, h4a,
      by linarith, hi2, by linarith, hi4⟩
  · rintro ⟨hr0, hrN, hc0, hcN, hI1, hI2, hI3, hI4⟩
    exact ⟨(floor_div_le_iff hst r).mpr hI4,
      ⟨hrN, (lt_ceil_div_iff hst r).mpr (by linarith)⟩,
      (floor_div_le_iff hst c).mpr hI2,
      hcN, (lt_ceil_div_iff hst c).mpr (by linarith)⟩

/-- Witness for C1 at a concrete camera and tile: viewport 800×600, offsets
`(0,0)`, scale `1`, 10×10 grid, tile `(2,2)`. -/
theorem visited_iff_intersects_witness :
    ((2 : ℤ), (2 : ℤ)) ∈ visitedTiles ⟨800, 600, 0, 0, 1⟩ 10 10 ↔
      (0 : ℤ) ≤ 2 ∧ (2 : ℤ) < (10 : ℕ) ∧ (0 : ℤ) ≤ 2 ∧ (2 : ℤ) < (10 : ℕ) ∧
        tileIntersectsViewport ⟨800, 600, 0, 0, 1⟩ 2 2 :=
  visited_iff_intersects ⟨800, 600, 0, 0, 1⟩ 10 10 2 2 (by norm_num) (by norm_num) (by norm_num)

/-! ## C4 — camera clamp idempotence -/

theorem clamp_clamp (a b x : ℚ) : max a (min b (max a (min b x))) = max a (min b x) := by
  rcases le_total a b with hab | hab <;>
    rcases le_total x a with hxa | hxa <;>
      rcases le_total x b with hxb | hxb <;>
        simp only [max_def, min_def] <;> split_ifs <;> linarith

/-- C4.  Camera clamp idempotence: applying `constrainViewport` twice gives
the same camera as applying it once, and applying it to a camera already
within the pan/zoom bounds returns that camera unchanged.  (`0 < rows` keeps
the rational model faithful: at `rows = 0` the source divides by zero.) -/
theorem constrainViewport_idempotent_and_noop (rows cols : ℕ) (width height x y s : ℚ)
    (_hr : 0 < rows) :
    (constrainViewport rows cols width height
        (constrainViewport rows cols width height x y s).xOffset
        (constrainViewport rows cols width height x y s).yOffset
        (constrainViewport rows cols width height x y s).scale =
      constrainViewport rows cols width height x y s) ∧
    (camInBounds rows cols width height x y s →
      constrainViewport rows cols width height x y s = ⟨x, y, s⟩) := by
  constructor
  · simp only [constrainViewport]
    rw [clamp_clamp ((getZoomConstraints rows height).1) ((getZoomConstraints rows height).2) s]
    rw [clamp_clamp 0 _ x, clamp_clamp 0 _ y]
  · rintro ⟨h1, h2, h3, h4, h5, h6⟩
    simp only [constrainViewport]
    rw [min_eq_right h2, max_eq_right h1]
    rw [min_eq_right h4, max_eq_right h3, min_eq_right h6, max_eq_right h5]

/-- Witness for C4 at a concrete state: 10×10 grid, 800×600 viewport, camera
`(5, 5, 1)` (which is within bounds, so both conjuncts are exercised). -/
theorem constrainViewport_idempotent_and_noop_witness :
    (constrainViewport 10 10 800 600
        (constrainViewport 10 10 800 600 5 5 1).xOffset
        (constrainViewport 10 10 800 600 5 5 1).yOffset
        (constrainViewport 10 10 800 600 5 5 1).scale =
      constrainViewport 10 10 800 600 5 5 1) ∧
    (camInBounds 10 10 800 600 5 5 1 →
      constrainViewport 10 10 800 600 5 5 1 = ⟨5, 5, 1⟩) :=
  constrainViewport_idempotent_and_noop 10 10 800 600 5 5 1 (by norm_num)

/-! ## C5 — monotonic convergence of the animation tick -/

theorem tick_self (t : Cam) : tick t t = t := by
  unfold tick
  norm_num

theorem ticks_absorb (t i : Cam) (n : ℕ) (h : ticks t i n = t) :
    ∀ m, n ≤ m → ticks t i m = t := by
  intro m hm
  obtain ⟨d, rfl⟩ := Nat.exists_eq_add_of_le hm
  clear hm
  induction d with
  | zero => simpa using h
  | succ k ih =>
    show tick t (ticks t i (n + k)) = t
    rw [ih]
    exact tick_self t

/-- After `n` ticks either the target has been reached exactly, or every
component's remaining distance is the initial distance scaled by
`(1 - LERP_FACTOR)^n = (17/20)^n`. -/
theorem ticks_reached_or_geom (t i : Cam) (n : ℕ) :
    ticks t i n = t ∨
      (t.xOffset - (ticks t i n).xOffset = (17 / 20 : ℚ) ^ n * (t.xOffset - i.xOffset) ∧
        t.yOffset - (ticks t i n).yOffset = (17 / 20 : ℚ) ^ n * (t.yOffset - i.yOffset) ∧
        t.scale - (ticks t i n).scale = (17 / 20 : ℚ) ^ n * (t.scale - i.scale)) := by
  induction n with
  | zero =>
    right
    simp [ticks]
  | succ k ih =>
    rcases ih with h | ⟨hx, hy, hs⟩
    · left
      show tick t (ticks t i k) = t
      rw [h]
      exact tick_self t
    · by_cases hcond : |t.xOffset - (ticks t i k).xOffset| < 1 / 10 ∧
          |t.yOffset - (ticks t i k).yOffset| < 1 / 10 ∧
          |t.scale - (ticks t i k).scale| < 1 / 1000
      · left
        show tick t (ticks t i k) = t
        unfold tick
        simp only []
        rw [if_pos hcond]
      · right
        have hstep : ticks t i (k + 1) = Cam.mk
            ((ticks t i k).xOffset + (t.xOffset - (ticks t i k).xOffset) * LERP_FACTOR)
            ((ticks t i k).yOffset + (t.yOffset - (ticks t i k).yOffset) * LERP_FACTOR)
            ((ticks t i k).scale + (t.scale - (ticks t i k).scale) * LERP_FACTOR) := by
          show tick t (ticks t i k) = _
          unfold tick
          simp only []
          rw [if_neg hcond]
        rw [hstep]
        dsimp only
        simp only [LERP_FACTOR]
        refine ⟨?_, ?_, ?_⟩
        · linear_combination (17 / 20 : ℚ) * hx
        · linear_combination (17 / 20 : ℚ) * hy
        · linear_combination (17 / 20 : ℚ) * hs

/-- A geometric factor small enough to beat `ε / (|d| + 1)` forces
`factor * |d| < ε`. -/
theorem pow_bound_step (p d ε : ℚ) (hp : 0 ≤ p) (_hε : 0 < ε)
    (h : p < ε / (|d| + 1)) : p * |d| < ε := by
  have habs : (0 : ℚ) ≤ |d| := abs_nonneg d
  have hpos : (0 : ℚ) < |d| + 1 := by linarith
  have hlt : p * (|d| + 1) < ε := (lt_div_iff₀ hpos).mp h
  nlinarith

theorem exists_snap_bound (t i : Cam) : ∃ N, ∀ n, N ≤ n → ticks t i n = t := by
  have hp0 : (0 : ℚ) ≤ 17 / 20 := by norm_num
  have hp1 : (17 / 20 : ℚ) ≤ 1 := by norm_num
  obtain ⟨n1, hn1⟩ :=
    exists_pow_lt_of_lt_one
      (show (0 : ℚ) < (1 / 10) / (|t.xOffset - i.xOffset| + 1) by positivity)
      (show (17 / 20 : ℚ) < 1 by norm_num)
  obtain ⟨n2, hn2⟩ :=
    exists_pow_lt_of_lt_one
      (show (0 : ℚ) < (1 / 10) / (|t.yOffset - i.yOffset| + 1) by positivity)
      (show (17 / 20 : ℚ) < 1 by norm_num)
  obtain ⟨n3, hn3⟩ :=
    exists_pow_lt_of_lt_one
      (show (0 : ℚ) < (1 / 1000) / (|t.scale - i.scale| + 1) by positivity)
      (show (17 / 20 : ℚ) < 1 by norm_num)
  set N := max n1 (max n2 n3) with hN
  refine ⟨N + 1, fun n hn => ?_⟩
  have hbase : ticks t i (N + 1) = t := by
    rcases ticks_reached_or_geom t i N with h | ⟨hx, hy, hs⟩
    · exact ticks_absorb t i N h (N + 1) (Nat.le_succ N)
    · have hpowN : (0 : ℚ) ≤ (17 / 20 : ℚ) ^ N := by positivity
      have hb1 : (17 / 20 : ℚ) ^ N ≤ (17 / 20 : ℚ) ^ n1 :=
        pow_le_pow_of_le_one hp0 hp1 (le_max_left _ _)
      have hb2 : (17 / 20 : ℚ) ^ N ≤ (17 / 20 : ℚ) ^ n2 :=
        pow_le_pow_of_le_one hp0 hp1 (le_trans (le_max_left _ _) (le_max_right _ _))
      have hb3 : (17 / 20 : ℚ) ^ N ≤ (17 / 20 : ℚ) ^ n3 :=
        pow_le_pow_of_le_one hp0 hp1 (le_trans (le_max_right _ _) (le_max_right _ _))
      have hdx : |t.xOffset - (ticks t i N).xOffset| < 1 / 10 := by
        rw [hx, abs_mul, abs_pow, abs_of_nonneg hp0]
        exact pow_bound_step _ _ _ hpowN (by norm_num) (lt_of_le_of_lt hb1 hn1)
      have hdy : |t.yOffset - (ticks t i N).yOffset| < 1 / 10 := by
        rw [hy, abs_mul, abs_pow, abs_of_nonneg hp0]
        exact pow_bound_step _ _ _ hpowN (by norm_num) (lt_of_le_of_lt hb2 hn2)
      have hds : |t.scale - (ticks t i N).scale| < 1 / 1000 := by
        rw [hs, abs_mul, abs_pow, abs_of_nonneg hp0]
        exact pow_bound_step _ _ _ hpowN (by norm_num) (lt_of_le_of_lt hb3 hn3)
      show tick t (ticks t i N) = t
      unfold tick
      rw [if_pos ⟨hdx, hdy, hds⟩]
  exact ticks_absorb t i (N + 1) hbase n hn

/-- The damped update `b - p * (b - a)` with `p ∈ [0, 1]` stays between the
start `a` and the target `b`. -/
theorem lerp_between (a b p : ℚ) (h0 : 0 ≤ p) (h1 : p ≤ 1) :
    min a b ≤ b - p * (b - a) ∧ b - p * (b - a) ≤ max a b := by
  rcases le_total a b with h | h
  · rw [min_eq_left h, max_eq_right h]
    constructor <;> nlinarith
  · rw [min_eq_right h, max_eq_left h]
    constructor <;> nlinarith

/-- C5.  Monotonic convergence of the animation tick: from any initial actual
camera and any fixed target, iterating the per-frame tick reaches the target
exactly after a bounded number of ticks (and stays there), and along the way
each component always lies between its initial value and its target value —
it never overshoots in either direction. -/
theorem tick_converges_without_overshoot (target init : Cam) :
    (∃ N, ∀ n, N ≤ n → ticks target init n = target) ∧
    (∀ n,
      (min init.xOffset target.xOffset ≤ (ticks target init n).xOffset ∧
        (ticks target init n).xOffset ≤ max init.xOffset target.xOffset) ∧
      (min init.yOffset target.yOffset ≤ (ticks target init n).yOffset ∧
        (ticks target init n).yOffset ≤ max init.yOffset target.yOffset) ∧
      (min init.scale target.scale ≤ (ticks target init n).scale ∧
        (ticks target init n).scale ≤ max init.scale target.scale)) := by
  refine ⟨exists_snap_bound target init, fun n => ?_⟩
  have hp0 : (0 : ℚ) ≤ (17 / 20 : ℚ) ^ n := by positivity
  have hp1 : (17 / 20 : ℚ) ^ n ≤ 1 := pow_le_one₀ (by norm_num) (by norm_num)
  rcases ticks_reached_or_geom target init n with h | ⟨hx, hy, hs⟩
  · rw [h]
    exact ⟨⟨min_le_right _ _, le_max_right _ _⟩, ⟨min_le_right _ _, le_max_right _ _⟩,
      ⟨min_le_right _ _, le_max_right _ _⟩⟩
  · have ex : (ticks target init n).xOffset =
        target.xOffset - (17 / 20 : ℚ) ^ n * (target.xOffset - init.xOffset) := by
      linarith
    have ey : (ticks target init n).yOffset =
        target.yOffset - (17 / 20 : ℚ) ^ n * (target.yOffset - init.yOffset) := by
      linarith
    have es : (ticks target init n).scale =
        target.scale - (17 / 20 : ℚ) ^ n * (target.scale - init.scale) := by
      linarith
    rw [ex, ey, es]
    exact ⟨lerp_between _ _ _ hp0 hp1, lerp_between _ _ _ hp0 hp1,
      lerp_between _ _ _ hp0 hp1⟩

/-- Witness for C5 at a concrete pair: target `(0, 0, 1)`, initial actual
camera `(100, 50, 2)`. -/
theorem tick_converges_without_overshoot_witness :
    (∃ N, ∀ n, N ≤ n → ticks ⟨0, 0, 1⟩ ⟨100, 50, 2⟩ n = ⟨0, 0, 1⟩) ∧
    (∀ n,
      (min (Cam.mk 100 50 2).xOffset (Cam.mk 0 0 1).xOffset ≤
          (ticks ⟨0, 0, 1⟩ ⟨100, 50, 2⟩ n).xOffset ∧
        (ticks ⟨0, 0, 1⟩ ⟨100, 50, 2⟩ n).xOffset ≤
          max (Cam.mk 100 50 2).xOffset (Cam.mk 0 0 1).xOffset) ∧
      (min (Cam.mk 100 50 2).yOffset (Cam.mk 0 0 1).yOffset ≤
          (ticks ⟨0, 0, 1⟩ ⟨100, 50, 2⟩ n).yOffset ∧
        (ticks ⟨0, 0, 1⟩ ⟨100, 50, 2⟩ n).yOffset ≤
          max (Cam.mk 100 50 2).yOffset (Cam.mk 0 0 1).yOffset) ∧
      (min (Cam.mk 100 50 2).scale (Cam.mk 0 0 1).scale ≤
          (ticks ⟨0, 0, 1⟩ ⟨100, 50, 2⟩ n).scale ∧
        (ticks ⟨0, 0, 1⟩ ⟨100, 50, 2⟩ n).scale ≤
          max (Cam.mk 100 50 2).scale (Cam.mk 0 0 1).scale)) :=
  tick_converges_without_overshoot ⟨0, 0, 1⟩ ⟨100, 50, 2⟩

/-! ## C7 — the stored target after controller operations -/

/-- C7 (counterexample).  On a 100×100 grid with a 500×500 viewport, the
stored target `(0, 0, 1)` is within the legal bounds; after the resize
handler shrinks the viewport to 500×250 the stored target is unchanged
(lines 195-201 only write the new pixel dimensions) and now violates the
zoom bound `maxScale = 250 / 500 = 1/2`. -/
theorem resize_leaves_target_out_of_bounds :
    targetInBounds ⟨100, 100, 500, 500, ⟨0, 0, 1⟩⟩ ∧
    ¬ targetInBounds (handleResize ⟨100, 100, 500, 500, ⟨0, 0, 1⟩⟩ 500 250) := by
  constructor
  · refine ⟨?_, ?_, ?_, ?_, ?_, ?_⟩ <;>
      norm_num [getZoomConstraints, TILE_SIZE, MIN_VISIBLE_TILES, MAX_VISIBLE_TILES]
  · rintro ⟨-, h2, -⟩
    rw [show (handleResize ⟨100, 100, 500, 500, ⟨0, 0, 1⟩⟩ 500 250) =
        ⟨100, 100, 500, 250, ⟨0, 0, 1⟩⟩ from rfl] at h2
    norm_num [getZoomConstraints, TILE_SIZE, MIN_VISIBLE_TILES] at h2

theorem constrainViewport_within_bounds (rows cols : ℕ) (width height x y s : ℚ)
    (hrows : 10 ≤ rows) (hh : 0 < height) :
    camInBounds rows cols width height
      (constrainViewport rows cols width height x y s).xOffset
      (constrainViewport rows cols width height x y s).yOffset
      (constrainViewport rows cols width height x y s).scale := by
  have hminmax : (getZoomConstraints rows height).1 ≤ (getZoomConstraints rows height).2 := by
    unfold getZoomConstraints
    simp only
    apply max_le
    · unfold MAX_VISIBLE_TILES MIN_VISIBLE_TILES TILE_SIZE
      gcongr
      norm_num
    · unfold MIN_VISIBLE_TILES TILE_SIZE
      have hcast : (10 : ℚ) ≤ (rows : ℚ) := by exact_mod_cast hrows
      gcongr
  unfold constrainViewport camInBounds
  simp only
  exact ⟨le_max_left _ _, max_le hminmax (min_le_left _ _),
    le_max_left _ _, max_le (le_max_left _ _) (min_le_left _ _),
    le_max_left _ _, max_le (le_max_left _ _) (min_le_left _ _)⟩

/-- C7 (amended).  The pan and wheel handlers clamp through
`constrainViewport` before storing, so after `applyPan` or `applyWheel` the
stored target satisfies the pan/zoom bounds computed from the current grid
dimensions and viewport pixel size; the resize handler, by contrast, does not
re-clamp (see the counterexample). -/
theorem pan_wheel_target_within_bounds (st : ControllerState)
    (dx dy deltaY mouseX mouseY : ℚ) (hrows : 10 ≤ st.rows) (hh : 0 < st.height) :
    targetInBounds (applyPan st dx dy) ∧
    targetInBounds (applyWheel st deltaY mouseX mouseY) := by
  constructor
  · exact constrainViewport_within_bounds st.rows st.cols st.width st.height
      (st.target.xOffset - dx) (st.target.yOffset - dy) st.target.scale hrows hh
  · exact constrainViewport_within_bounds st.rows st.cols st.width st.height
      _ _ _ hrows hh

/-- Witness for the amended C7 at a concrete state and inputs. -/
theorem pan_wheel_target_within_bounds_witness :
    targetInBounds (applyPan ⟨10, 10, 800, 600, ⟨0, 0, 1⟩⟩ 100 50) ∧
    targetInBounds (applyWheel ⟨10, 10, 800, 600, ⟨0, 0, 1⟩⟩ (-120) 10 20) :=
  pan_wheel_target_within_bounds ⟨10, 10, 800, 600, ⟨0, 0, 1⟩⟩ 100 50 (-120) 10 20
    (by norm_num) (by norm_num)

/-! ## C8 — click resolution -/

/-- C8 (counterexample).  With camera `(0, 0, 1)` the clamped target never
moves while panning left/up, so the camera snapshot is constant.  The gesture
goes down at screen `(0, 0)` and drifts to `(9, 9)` in steps of 3 pixels:
the final move is more than 5 screen pixels from the pointer-down position in
both axes, yet the gesture still resolves to tile `(0, 0)` — the per-move
pan check (consecutive deltas of 3) never fires, and the from-down check of
`handlePointerMove` is disabled because the local pointer-down position is
the sentinel `(0, 0)` (line 397). -/
theorem drag_from_origin_still_resolves :
    (∃ m ∈ (Gesture.mk (0, 0) [(3, 3), (6, 6), (9, 9)] (9, 9)).moves,
        5 < |m.1 - (0 : ℚ)| ∧ 5 < |m.2 - (0 : ℚ)|) ∧
    resolveClick ⟨0, 0, 1⟩ 10 10 ⟨(0, 0), [(3, 3), (6, 6), (9, 9)], (9, 9)⟩ =
      some (0, 0) := by
  constructor
  · exact ⟨(9, 9), by norm_num, by norm_num, by norm_num⟩
  · have hpan : panHasMoved ⟨(0, 0), [(3, 3), (6, 6), (9, 9)], (9, 9)⟩ = false := by
      norm_num [panHasMoved]
    have hpix : pixiHasMoved ⟨0, 0, 1⟩ ⟨(0, 0), [(3, 3), (6, 6), (9, 9)], (9, 9)⟩ = false := by
      norm_num [pixiHasMoved, localPos]
    rw [resolveClick, hpan, hpix]
    norm_num [localPos, TILE_SIZE]

/-- C8 (amended).  For a gesture whose local pointer-down position is not the
sentinel `(0, 0)`: if the pointer-up resolves to a tile, then every move
stayed within 5 *container-local* units (`5 · scale` screen pixels) of the
pointer-down position in both axes, and the resolved tile is the floor of the
local pointer-up position divided by `TILE_SIZE`; moreover the concrete tap
at pixel `(125, 125)` with camera `(0, 0, 1)` resolves to tile `(2, 2)`. -/
theorem tap_resolution_threshold (cam : Cam) (rows cols : ℕ) (g : Gesture) (rc : ℤ × ℤ)
    (hsent : localPos cam g.down ≠ (0, 0))
    (hres : resolveClick cam rows cols g = some rc) :
    (∀ m ∈ g.moves,
        |(localPos cam m).1 - (localPos cam g.down).1| ≤ 5 ∧
        |(localPos cam m).2 - (localPos cam g.down).2| ≤ 5) ∧
    rc = (⌊(localPos cam g.up).2 / TILE_SIZE⌋, ⌊(localPos cam g.up).1 / TILE_SIZE⌋) ∧
    resolveClick ⟨0, 0, 1⟩ 10 10 ⟨(125, 125), [], (125, 125)⟩ = some (2, 2) := by
  have hmv : (panHasMoved g || pixiHasMoved cam g) = false := by
    by_contra hne
    rw [resolveClick] at hres
    rw [Bool.not_eq_false] at hne
    rw [if_pos hne] at hres
    exact Option.noConfusion hres
  have hpix : pixiHasMoved cam g = false := (Bool.or_eq_false_iff.mp hmv).2
  refine ⟨?_, ?_, ?_⟩
  · intro m hm
    unfold pixiHasMoved at hpix
    rw [if_neg hsent] at hpix
    have := List.any_eq_false.mp hpix m hm
    simp only [Bool.or_eq_true, decide_eq_true_eq, not_or, not_lt] at this
    exact this
  · rw [resolveClick, hmv] at hres
    simp only [Bool.false_eq_true, if_false] at hres
    split at hres
    · exact (Option.some.injEq _ _).mp hres.symm
    · exact Option.noConfusion hres
  · have hpan2 : panHasMoved ⟨(125, 125), [], (125, 125)⟩ = false := by
      norm_num [panHasMoved]
    have hpix2 : pixiHasMoved ⟨0, 0, 1⟩ ⟨(125, 125), [], (125, 125)⟩ = false := by
      norm_num [pixiHasMoved, localPos]
    rw [resolveClick, hpan2, hpix2]
    norm_num [localPos, TILE_SIZE]

/-- Witness for the amended C8: the tap gesture at `(125, 125)` itself. -/
theorem tap_resolution_threshold_witness :
    (∀ m ∈ (Gesture.mk (125, 125) [] (125, 125)).moves,
        |(localPos ⟨0, 0, 1⟩ m).1 - (localPos ⟨0, 0, 1⟩ (125, 125)).1| ≤ 5 ∧
        |(localPos ⟨0, 0, 1⟩ m).2 - (localPos ⟨0, 0, 1⟩ (125, 125)).2| ≤ 5) ∧
    ((2 : ℤ), (2 : ℤ)) =
      (⌊(localPos ⟨0, 0, 1⟩ ((125 : ℚ), (125 : ℚ))).2 / TILE_SIZE⌋,
        ⌊(localPos ⟨0, 0, 1⟩ ((125 : ℚ), (125 : ℚ))).1 / TILE_SIZE⌋) ∧
    resolveClick ⟨0, 0, 1⟩ 10 10 ⟨(125, 125), [], (125, 125)⟩ = some (2, 2) :=
  tap_resolution_threshold ⟨0, 0, 1⟩ 10 10 ⟨(125, 125), [], (125, 125)⟩ (2, 2)
    (by norm_num [localPos, Prod.ext_iff])
    (by
      have hpan : panHasMoved ⟨(125, 125), [], (125, 125)⟩ = false := by
        norm_num [panHasMoved]
      have hpix : pixiHasMoved ⟨0, 0, 1⟩ ⟨(125, 125), [], (125, 125)⟩ = false := by
        norm_num [pixiHasMoved, localPos]
      rw [resolveClick, hpan, hpix]
      norm_num [localPos, TILE_SIZE])

/-! ## C10 — the Minimal-LOD occupied-ratio divisor is never zero -/

/-- C10.  For every grid state reachable through the public operations
(`rows` and `cols` positive multiples of `CHUNK_SIZE`: the initial grid is
10×10 and `expandGrid` doubles) and every camera with positive scale and
non-negative offsets, every chunk visited by the Minimal-LOD double loop
(`chunkStartRow ≤ chunkRow < chunkEndRow`, `chunkStartCol ≤ chunkCol <
chunkEndCol`) scans at least one tile, and that tile is in bounds; hence
`totalCount > 0` and the division `soldCount / totalCount` (line 304) has a
non-zero divisor — it can produce neither a division by zero nor `NaN`. -/
theorem chunk_divisor_positive (v : Viewport) (rows cols : ℕ) (kr kc : ℕ) (td : TileMap)
    (_hrk : rows = CHUNK_SIZE * kr) (_hkr : 0 < kr)
    (_hck : cols = CHUNK_SIZE * kc) (_hkc : 0 < kc)
    (hs : 0 < v.scale) (hx : 0 ≤ v.xOffset) (hy : 0 ≤ v.yOffset)
    (chunkRow chunkCol : ℤ)
    (h1 : chunkStartRow v ≤ chunkRow) (h2 : chunkRow < chunkEndRow v rows)
    (h3 : chunkStartCol v ≤ chunkCol) (h4 : chunkCol < chunkEndCol v cols) :
    0 < (chunkOpFor td rows cols chunkRow chunkCol).totalCount ∧
    ((chunkOpFor td rows cols chunkRow chunkCol).totalCount : ℚ) ≠ 0 ∧
    (chunkRow * (CHUNK_SIZE : ℤ), chunkCol * (CHUNK_SIZE : ℤ)) ∈
      chunkTiles rows cols chunkRow chunkCol ∧
    0 ≤ chunkRow * (CHUNK_SIZE : ℤ) ∧ chunkRow * (CHUNK_SIZE : ℤ) < (rows : ℤ) ∧
    0 ≤ chunkCol * (CHUNK_SIZE : ℤ) ∧ chunkCol * (CHUNK_SIZE : ℤ) < (cols : ℤ) := by
  have hst : 0 < scaledTileSize v := by
    have h50 : (0 : ℚ) < TILE_SIZE := by norm_num [TILE_SIZE]
    exact mul_pos h50 hs
  have hchunk : (0 : ℚ) < (CHUNK_SIZE : ℚ) := by norm_num [CHUNK_SIZE]
  -- the visited chunk row starts strictly below `endRow ≤ rows`
  have hrowlt : chunkRow * (CHUNK_SIZE : ℤ) < endRow v rows := by
    have := Int.lt_ceil.mp h2
    have h' : (chunkRow : ℚ) * (CHUNK_SIZE : ℚ) < ((endRow v rows : ℤ) : ℚ) :=
      (lt_div_iff₀ hchunk).mp this
    exact_mod_cast h'
  have hcollt : chunkCol * (CHUNK_SIZE : ℤ) < endCol v cols := by
    have := Int.lt_ceil.mp h4
    have h' : (chunkCol : ℚ) * (CHUNK_SIZE : ℚ) < ((endCol v cols : ℤ) : ℚ) :=
      (lt_div_iff₀ hchunk).mp this
    exact_mod_cast h'
  have hrow_rows : chunkRow * (CHUNK_SIZE : ℤ) < (rows : ℤ) :=
    lt_of_lt_of_le hrowlt (min_le_left _ _)
  have hcol_cols : chunkCol * (CHUNK_SIZE : ℤ) < (cols : ℤ) :=
    lt_of_lt_of_le hcollt (min_le_left _ _)
  -- non-negative offsets make the visited chunk indices non-negative
  have hsr0 : (0 : ℤ) ≤ startRow v := Int.floor_nonneg.mpr (div_nonneg hy hst.le)
  have hsc0 : (0 : ℤ) ≤ startCol v := Int.floor_nonneg.mpr (div_nonneg hx hst.le)
  have hcr0 : (0 : ℤ) ≤ chunkRow := by
    refine le_trans ?_ h1
    exact Int.floor_nonneg.mpr (div_nonneg (by exact_mod_cast hsr0) hchunk.le)
  have hcc0 : (0 : ℤ) ≤ chunkCol := by
    refine le_trans ?_ h3
    exact Int.floor_nonneg.mpr (div_nonneg (by exact_mod_cast hsc0) hchunk.le)
  have hr0 : (0 : ℤ) ≤ chunkRow * (CHUNK_SIZE : ℤ) := by positivity
  have hc0 : (0 : ℤ) ≤ chunkCol * (CHUNK_SIZE : ℤ) := by positivity
  have hmem : (chunkRow * (CHUNK_SIZE : ℤ), chunkCol * (CHUNK_SIZE : ℤ)) ∈
      chunkTiles rows cols chunkRow chunkCol := by
    unfold chunkTiles
    refine List.mem_flatMap.mpr ⟨chunkRow * (CHUNK_SIZE : ℤ), ?_, ?_⟩
    · refine mem_intRange.mpr ⟨le_refl _, lt_min ?_ hrow_rows⟩
      have : (0 : ℤ) < (CHUNK_SIZE : ℤ) := by norm_num [CHUNK_SIZE]
      nlinarith
    · refine List.mem_map.mpr ⟨chunkCol * (CHUNK_SIZE : ℤ), ?_, rfl⟩
      refine mem_intRange.mpr ⟨le_refl _, lt_min ?_ hcol_cols⟩
      have : (0 : ℤ) < (CHUNK_SIZE : ℤ) := by norm_num [CHUNK_SIZE]
      nlinarith
  have hpos : 0 < (chunkOpFor td rows cols chunkRow chunkCol).totalCount :=
    List.length_pos.mpr (List.ne_nil_of_mem hmem)
  exact ⟨hpos, by exact_mod_cast hpos.ne', hmem, hr0, hrow_rows, hc0, hcol_cols⟩

/-- Witness for C10 at a concrete Minimal-LOD frame: 10×10 grid, 800×600
viewport, scale `1/20 < LOD_MINIMAL_SCALE`, offsets `(0, 0)`, chunk `(0, 0)`. -/
theorem chunk_divisor_positive_witness :
    0 < (chunkOpFor (fun _ => none) 10 10 0 0).totalCount ∧
    ((chunkOpFor (fun _ => none) 10 10 0 0).totalCount : ℚ) ≠ 0 ∧
    ((0 : ℤ) * (CHUNK_SIZE : ℤ), (0 : ℤ) * (CHUNK_SIZE : ℤ)) ∈
      chunkTiles 10 10 0 0 ∧
    0 ≤ (0 : ℤ) * (CHUNK_SIZE : ℤ) ∧ (0 : ℤ) * (CHUNK_SIZE : ℤ) < ((10 : ℕ) : ℤ) ∧
    0 ≤ (0 : ℤ) * (CHUNK_SIZE : ℤ) ∧ (0 : ℤ) * (CHUNK_SIZE : ℤ) < ((10 : ℕ) : ℤ) :=
  chunk_divisor_positive ⟨800, 600, 0, 0, 1 / 20⟩ 10 10 1 1 (fun _ => none)
    (by norm_num [CHUNK_SIZE]) (by norm_num) (by norm_num [CHUNK_SIZE]) (by norm_num)
    (by norm_num) (by norm_num) (by norm_num)
    0 0
    (by norm_num [chunkStartRow, startRow, scaledTileSize, TILE_SIZE, CHUNK_SIZE])
    (by norm_num [chunkEndRow, endRow, scaledTileSize, TILE_SIZE, CHUNK_SIZE])
    (by norm_num [chunkStartCol, startCol, scaledTileSize, TILE_SIZE, CHUNK_SIZE])
    (by norm_num [chunkEndCol, endCol, scaledTileSize, TILE_SIZE, CHUNK_SIZE])

end GridCanvas
